import Mathlib

/-!
Verification development for the DocEX extraction job orchestration core.

The definitions below are a shallow embedding of the Python source:
  * `src/app/utils/extraction_utils.py` (job record, cost tables, executor),
  * `src/app/utils/persistent_jobs.py` (file persistence),
  * `src/app/llm/ai_agents/data_extraction_agent.py` (strategy/model selection),
  * `src/app/extraction/adapters/enhanced_jsonld_bridge.py` (extraction bridge),
  * `src/app/routes/agent_api.py` (status/results reads).

External effects (provider adapters, the file system, the regex engine) are
modelled as explicit environment inputs; pure control flow is translated
directly.  Machine floats in the source are scaled to exact integers:
dollar amounts in thousandths of a dollar (the literals 0.008 and 0.002
become 8 and 2) and confidence scores in hundredths (0.4, 0.7, 0.8 become
40, 70, 80); the agent-level token cost formula, which genuinely divides,
is kept in ℚ.
-/

namespace DocEX

/-- Equality of exception-or-value results is decidable whenever both
components are. -/
instance {ε α : Type} [DecidableEq ε] [DecidableEq α] :
    DecidableEq (Except ε α) := fun x y =>
  match x, y with
  | .ok a, .ok b =>
      if h : a = b then .isTrue (by rw [h])
      else .isFalse (fun hh => h (Except.ok.inj hh))
  | .error a, .error b =>
      if h : a = b then .isTrue (by rw [h])
      else .isFalse (fun hh => h (Except.error.inj hh))
  | .ok _, .error _ => .isFalse (fun hh => Except.noConfusion hh)
  | .error _, .ok _ => .isFalse (fun hh => Except.noConfusion hh)

/-- Job status values used by `ExtractionJob` (`extraction_utils.py`):
the string field `status` only ever takes the values
`pending`, `running`, `complete`, `error`. -/
inductive Status where
  | pending
  | running
  | complete
  | error
deriving DecidableEq, Repr

/-- One processed stakeholder entry, the dict shape produced by
`process_llm_extraction_response`, `enhanced_pattern_extraction` and
`create_placeholder_stakeholder` in `enhanced_jsonld_bridge.py`.
The `@id` field (a derived label, never read by logic) is omitted. -/
structure Stakeholder where
  name : String
  stakeholderType : String
  role : String
  confidenceScore : ℕ
  extractionMethod : String
  sourceText : String
  organization : String
deriving DecidableEq, Repr

/-- The `extractionSummary` sub-dict of an extraction payload.
In `create_extraction_result` the `error` key is absent, modelled as
`errorFlag = false`; in `generate_error_result` it is `True`. -/
structure Summary where
  totalStakeholders : ℕ
  errorFlag : Bool
  errorDetails : Option String
deriving DecidableEq, Repr

/-- The dict returned by `extract_stakeholders_enhanced`
(`enhanced_jsonld_bridge.py`): either the success shape built by
`create_extraction_result` (`@type = "StakeholderExtraction"`) or the error
shape built by `generate_error_result` (`@type = "ExtractionError"`).
Constant provenance/URI fields are omitted; `typeName` records `@type`. -/
structure Payload where
  typeName : String
  sourceDocument : String
  stakeholders : List Stakeholder
  summary : Summary
  errorMessage : Option String
deriving DecidableEq, Repr

/-- The `options` dict attached to a job at submission
(`agent_api.py`, `start_extraction`). -/
structure JobOptions where
  useContext : Bool
  detailedOutput : Bool
  jsonldDir : Option String
deriving DecidableEq, Repr

/-- `ExtractionJob` (`extraction_utils.py` lines 19-34): the job record.
`start_time` is an abstract timestamp (opaque to all verified logic). -/
structure Job where
  job_id : String
  filename : String
  priority : String
  options : JobOptions
  status : Status
  progress : ℕ
  current_step : String
  substep : String
  start_time : ℕ
  model_used : Option String
  cost_estimate : ℕ
  results : Option Payload
  error : Option String
deriving DecidableEq, Repr

/-- `ExtractionJob.__init__`: a fresh job is `pending` with zero progress,
no model, zero cost, and no results or error. -/
def Job.fresh (jid fname prio : String) (opts : JobOptions) (t : ℕ) : Job :=
  { job_id := jid
    filename := fname
    priority := prio
    options := opts
    status := .pending
    progress := 0
    current_step := "Initializing..."
    substep := ""
    start_time := t
    model_used := none
    cost_estimate := 0
    results := none
    error := none }

/-- `ExtractionJob.update_status` (`extraction_utils.py` lines 40-48): sets
`self.status = status` unconditionally, applies the keyword mutations for
attributes the object has, and saves.  In the repository the only keyword
ever passed is `error=...`, so the kwargs bag is modelled as an optional
`error` update (`none` = no kwargs). -/
def Job.update_status (j : Job) (s : Status) (err : Option String) : Job :=
  { j with status := s,
           error := match err with
                    | some v => some v
                    | none => j.error }

/-- `get_model_for_priority` (`extraction_utils.py` lines 95-103). -/
def get_model_for_priority (priority : String) : String :=
  if priority = "cost" then "Local Llama 3.1 8B"
  else if priority = "quality" then "GPT-4o"
  else if priority = "speed" then "DeepSeek-V3"
  else if priority = "privacy" then "Local Llama 3.1 8B"
  else "Unknown"

/-- `calculate_extraction_cost` (`extraction_utils.py` lines 105-113): the
finalized cost is a fixed per-priority constant, in thousandths of a dollar
(the source literals are 0.0, 0.008, 0.002, 0.0). -/
def calculate_extraction_cost (priority : String) : ℕ :=
  if priority = "cost" then 0
  else if priority = "quality" then 8
  else if priority = "speed" then 2
  else if priority = "privacy" then 0
  else 0

/-- `get_estimated_duration` (`extraction_utils.py` lines 85-93). -/
def get_estimated_duration (priority : String) : ℕ :=
  if priority = "cost" then 240
  else if priority = "quality" then 90
  else if priority = "speed" then 45
  else if priority = "privacy" then 240
  else 120

/-- Decides whether `pat` occurs as a contiguous run at the head of `s`. -/
def charsMatchHead : List Char → List Char → Bool
  | [], _ => true
  | _ :: _, [] => false
  | p :: ps, c :: cs => p = c && charsMatchHead ps cs

/-- Decides whether `pat` occurs as a contiguous run anywhere in `s`
(the Python `pat in s` substring test). -/
def charsContain (pat : List Char) : List Char → Bool
  | [] => charsMatchHead pat []
  | c :: cs => charsMatchHead pat (c :: cs) || charsContain pat cs

/-- Python `pat in s` on strings. -/
def strContains (s pat : String) : Bool :=
  charsContain pat.data s.data

/-- ASCII lower-casing of one character (Python `str.lower()` restricted to
ASCII, which covers every model identifier the code compares). -/
def lowerChar (c : Char) : Char :=
  if 'A' ≤ c && c ≤ 'Z' then Char.ofNat (c.toNat + 32) else c

/-- ASCII lower-casing of a string (Python `str.lower()`). -/
def strToLower (s : String) : String :=
  ⟨s.data.map lowerChar⟩

/-- The local-model test of `DataExtractionAgent._calculate_cost`
(`data_extraction_agent.py` line 496):
`"llama" in model.lower() or "ollama" in model.lower()`. -/
def isLocalModel (model : String) : Bool :=
  strContains (strToLower model) "llama" || strContains (strToLower model) "ollama"

/-- The `model_availability` dict built by
`DataExtractionAgent._test_model_availability`
(`data_extraction_agent.py` lines 106-139): exactly the three keys
`"gpt-4o"`, `"deepseek/DeepSeek-V3-0324"`, `"llama3.1:8b-instruct-q8_0"`. -/
structure Availability where
  gpt4o : Bool
  deepseek : Bool
  llama : Bool
deriving DecidableEq, Repr

/-- Python `availability.get(key, False)` on the three-key dict. -/
def Availability.get (av : Availability) (key : String) : Bool :=
  if key = "gpt-4o" then av.gpt4o
  else if key = "deepseek/DeepSeek-V3-0324" then av.deepseek
  else if key = "llama3.1:8b-instruct-q8_0" then av.llama
  else false

/-- Modelled from the spec: the configuration file
`app/llm/ai_agents/configs/agents.yaml`, read by
`DataExtractionAgent._load_config`, is not part of the repository snapshot,
so the `model_strategies` table (each named strategy with its ordered
`applicable_models` list, spec section 3 "Strategy Descriptor") is
reconstructed from the strategy/model pairs the code and its tests use:
`native_structured` with GPT-4o, `json_mode_guided` with DeepSeek-V3,
`ollama_structured` and the `guided_json_prompting` fallback with the
local Llama model. -/
def modelStrategies (strategy : String) : List String :=
  if strategy = "native_structured" then ["gpt-4o"]
  else if strategy = "json_mode_guided" then ["deepseek/DeepSeek-V3-0324"]
  else if strategy = "ollama_structured" then ["llama3.1:8b-instruct-q8_0"]
  else if strategy = "guided_json_prompting" then ["llama3.1:8b-instruct-q8_0"]
  else []

/-- Modelled from the spec: iteration order of
`agent_config["model_strategies"].items()` in `_select_strategy`
(the YAML insertion order), taken as the order the strategies are
listed in the spec and exercised in the tests. -/
def strategyNames : List String :=
  ["native_structured", "json_mode_guided", "ollama_structured",
   "guided_json_prompting"]

/-- `DataExtractionAgent._select_strategy`
(`data_extraction_agent.py` lines 228-251), as a pure function of the
availability map, the priority hint and the optional explicit model. -/
def select_strategy (av : Availability) (priority : String)
    (model : Option String) : String :=
  if priority = "quality" && av.gpt4o then "native_structured"
  else if priority = "privacy" && av.llama then "ollama_structured"
  else if (priority = "cost" || priority = "speed") && av.llama then
    "ollama_structured"
  else if av.deepseek then "json_mode_guided"
  else if av.gpt4o then "native_structured"
  else
    match model with
    | some m =>
        match strategyNames.find?
            (fun s => (modelStrategies s).contains m && av.get m) with
        | some s => s
        | none => "guided_json_prompting"
    | none => "guided_json_prompting"

/-- `DataExtractionAgent._select_model`
(`data_extraction_agent.py` lines 253-274).  Raises `RuntimeError` when no
model of the strategy is available, modelled as `Except.error`. -/
def select_model (av : Availability) (strategy priority : String) :
    Except String String :=
  let available := (modelStrategies strategy).filter av.get
  if available.isEmpty then
    .error ("No available models for strategy: " ++ strategy)
  else if priority = "cost" && available.contains "llama3.1:8b-instruct-q8_0" then
    .ok "llama3.1:8b-instruct-q8_0"
  else if priority = "quality" && available.contains "openai/gpt-4o" then
    .ok "openai/gpt-4o"
  else if priority = "speed" && available.contains "deepseek/DeepSeek-V3-0324" then
    .ok "deepseek/DeepSeek-V3-0324"
  else if priority = "privacy" && available.contains "llama3.1:8b-instruct-q8_0" then
    .ok "llama3.1:8b-instruct-q8_0"
  else
    .ok (available.headD "")

/-- The selection step of `DataExtractionAgent.extract_stakeholders`
(`data_extraction_agent.py` lines 164-167):
`selected_strategy = strategy or self._select_strategy(priority, model)`;
`selected_model = model or self._select_model(selected_strategy, priority)`.
Returns the (strategy, model) pair actually attempted. -/
def select_candidates (av : Availability) (priority : String)
    (strategyOpt modelOpt : Option String) : Except String (String × String) :=
  let s := strategyOpt.getD (select_strategy av priority modelOpt)
  match modelOpt with
  | some m => .ok (s, m)
  | none => (select_model av s priority).map (fun m => (s, m))

/-- `DataExtractionAgent._calculate_cost`
(`data_extraction_agent.py` lines 492-513), with the token estimates for a
given content/result pair abstracted to the two counts the formula uses.
This value is attached to the agent-level `ExtractionResult`; it is never
persisted to a job record. -/
def agent_calculate_cost (model : String) (inputTokens outputTokens : ℚ) : ℚ :=
  if isLocalModel model then 0
  else if strContains model "gpt-4o" then
    inputTokens * (250 / 100) / 1000000 + outputTokens * 10 / 1000000
  else if strContains (strToLower model) "deepseek" then
    inputTokens * (27 / 100) / 1000000 + outputTokens * (110 / 100) / 1000000
  else 0

/-- The JSON-LD metadata dicts consumed by the bridge, restricted to the two
fields the verified claims exercise: a main text field (one of the
`content_fields` scanned first by `extract_document_content_from_metadata`)
and the publisher field read by `create_placeholder_stakeholder`.  The
paragraph-reconstruction branch (`docex:hasParagraph`) is not exercised by
this shape. -/
structure Metadata where
  textContent : String
  publisher : Option String
deriving DecidableEq, Repr

/-- The keyword scan of `extract_document_content_from_metadata`
(`enhanced_jsonld_bridge.py` line 127). -/
def containsContentKeyword (s : String) : Bool :=
  ["stakeholder", "community", "organization", "people", "public"].any
    (fun w => strContains (strToLower s) w)

/-- `extract_document_content_from_metadata`
(`enhanced_jsonld_bridge.py` lines 89-136) on the modelled metadata shape:
the text field is used when longer than 50 characters; otherwise the
last-resort scan over remaining string fields (here only the publisher)
requires length above 100 and a stakeholder-related keyword; otherwise the
empty string is returned. -/
def extract_document_content (m : Metadata) : String :=
  if m.textContent.length > 50 then m.textContent
  else
    match m.publisher with
    | some p => if p.length > 100 && containsContentKeyword p then p else ""
    | none => ""

/-- A raw stakeholder dict as produced by an external adapter, before
`process_llm_extraction_response` normalizes it; `none` models an absent
dict key. -/
structure RawStakeholder where
  name : Option String
  stakeholderType : Option String
  role : Option String
  organization : Option String
  confidenceScore : Option ℕ
  sourceText : Option String
deriving DecidableEq, Repr

/-- `process_llm_extraction_response` (`enhanced_jsonld_bridge.py`
lines 587-629) applied to a list of dicts: entries without a `name` key are
skipped, the rest are normalized with the defaults of lines 606-616. -/
def process_llm_extraction_response (raws : List RawStakeholder) :
    List Stakeholder :=
  raws.filterMap (fun r =>
    match r.name with
    | none => none
    | some n => some
        { name := n
          stakeholderType := r.stakeholderType.getD "UNKNOWN"
          role := r.role.getD "Stakeholder"
          confidenceScore := r.confidenceScore.getD 80
          extractionMethod := "llm-based"
          sourceText := r.sourceText.getD ("LLM identified: " ++ n)
          organization := r.organization.getD "Unknown" })

/-- The `ExtractionResult` fields of `DataExtractionAgent.extract_stakeholders`
that `try_llm_extraction` reads (lines 264-292 of the bridge). -/
structure AgentOutcome where
  success : Bool
  stakeholders : List RawStakeholder
  extractionConfidence : ℕ

/-- The result-dict fields of `LocalLlamaClient.extract_stakeholders_jsonld`
that `try_llm_extraction` reads (lines 364-387 of the bridge). -/
structure LlamaOutcome where
  success : Bool
  stakeholders : List RawStakeholder

/-- The dict conversion of the DataExtractionAgent branch of
`try_llm_extraction` (`enhanced_jsonld_bridge.py` lines 277-286). -/
def convertAgentStakeholder (conf : ℕ) (r : RawStakeholder) : RawStakeholder :=
  { name := some (r.name.getD "Unknown")
    stakeholderType := some (r.stakeholderType.getD "UNKNOWN")
    role := some (r.role.getD "Stakeholder")
    organization := some (r.organization.getD "Unknown")
    confidenceScore := some (r.confidenceScore.getD conf)
    sourceText := some ("AI Agent extracted: " ++ r.name.getD "Unknown") }

/-- The dict conversion of the LocalLlamaClient branch of
`try_llm_extraction` (`enhanced_jsonld_bridge.py` lines 373-382). -/
def convertLlamaStakeholder (r : RawStakeholder) : RawStakeholder :=
  { name := some (r.name.getD "Unknown")
    stakeholderType := some (r.stakeholderType.getD "INDIVIDUAL")
    role := some (r.role.getD "Stakeholder")
    organization := some (r.organization.getD "Unknown")
    confidenceScore := some (r.confidenceScore.getD 80)
    sourceText := some ("Local Llama extracted: " ++ r.name.getD "Unknown") }

/-- The external effects of one bridge invocation.  Each provider adapter
call is an opaque collaborator (spec section 6), modelled as its returned
value or raised exception; `patternStakeholders` is the value of
`enhanced_pattern_extraction` for the document content, the regex engine
being external to the embedding. -/
structure BridgeEnv where
  fileFound : Bool
  parsed : Except String Metadata
  agentAttempt : Except String AgentOutcome
  structuredAttempt : Except String (Option (List RawStakeholder))
  llamaAttempt : Except String LlamaOutcome
  patternStakeholders : List Stakeholder

/-- `try_llm_extraction` (`enhanced_jsonld_bridge.py` lines 252-401): the
three adapter attempts in order; a raised exception, an unsuccessful result
or an empty processed list falls through to the next attempt; exhaustion
returns the empty list. -/
def try_llm_extraction (env : BridgeEnv) : List Stakeholder :=
  let agentStks :=
    match env.agentAttempt with
    | .error _ => []
    | .ok ar =>
        if ar.success && !ar.stakeholders.isEmpty then
          process_llm_extraction_response
            (ar.stakeholders.map (convertAgentStakeholder ar.extractionConfidence))
        else []
  if !agentStks.isEmpty then agentStks
  else
    let structuredStks :=
      match env.structuredAttempt with
      | .error _ => []
      | .ok none => []
      | .ok (some raws) =>
          if raws.isEmpty then [] else process_llm_extraction_response raws
    if !structuredStks.isEmpty then structuredStks
    else
      match env.llamaAttempt with
      | .error _ => []
      | .ok lr =>
          if lr.success && !lr.stakeholders.isEmpty then
            process_llm_extraction_response
              (lr.stakeholders.map convertLlamaStakeholder)
          else []

/-- `create_placeholder_stakeholder` (`enhanced_jsonld_bridge.py`
lines 631-643). -/
def create_placeholder_stakeholder (filename : String) (m : Metadata) :
    List Stakeholder :=
  [{ name := "Document Author/Publisher"
     stakeholderType := "INDIVIDUAL"
     role := "Content Creator"
     confidenceScore := 40
     extractionMethod := "placeholder"
     sourceText := "Placeholder for document " ++ filename ++
       " - content extraction methods not available"
     organization := m.publisher.getD "Unknown Publisher" }]

/-- `perform_stakeholder_extraction` (`enhanced_jsonld_bridge.py`
lines 210-250): empty content short-circuits to the placeholder; otherwise
LLM extraction, then pattern extraction, then the placeholder. -/
def perform_stakeholder_extraction (env : BridgeEnv) (content filename : String)
    (m : Metadata) : List Stakeholder :=
  if content.isEmpty then create_placeholder_stakeholder filename m
  else
    let llm := try_llm_extraction env
    if !llm.isEmpty then llm
    else
      let pat := env.patternStakeholders
      if pat.isEmpty then create_placeholder_stakeholder filename m else pat

/-- `create_extraction_result` (`enhanced_jsonld_bridge.py` lines 645-695):
the success payload; `extractionSummary` has no `error` key. -/
def create_extraction_result (stks : List Stakeholder) (filename : String) :
    Payload :=
  { typeName := "StakeholderExtraction"
    sourceDocument := filename
    stakeholders := stks
    summary := { totalStakeholders := stks.length
                 errorFlag := false
                 errorDetails := none }
    errorMessage := none }

/-- `generate_error_result` (`enhanced_jsonld_bridge.py` lines 697-713):
the error payload, with empty stakeholder list and
`extractionSummary.error = True`. -/
def generate_error_result (filename msg : String) : Payload :=
  { typeName := "ExtractionError"
    sourceDocument := filename
    stakeholders := []
    summary := { totalStakeholders := 0
                 errorFlag := true
                 errorDetails := some msg }
    errorMessage := some msg }

/-- The body of the `try` block of
`extract_stakeholders_from_jsonld_metadata` (`enhanced_jsonld_bridge.py`
lines 21-81): a missing file returns the error payload directly (line 50);
a failed `json.load` raises.  All later steps catch internally. -/
def extractMetadataBody (env : BridgeEnv) (filename : String) :
    Except String Payload :=
  if !env.fileFound then
    .ok (generate_error_result filename ("JSON-LD file not found: " ++ filename))
  else
    match env.parsed with
    | .error e => .error e
    | .ok m =>
        let content := extract_document_content m
        let stks := perform_stakeholder_extraction env content filename m
        .ok (create_extraction_result stks filename)

/-- `extract_stakeholders_from_jsonld_metadata` (`enhanced_jsonld_bridge.py`
lines 12-87): the whole body runs under `try`; any exception is converted
to the error payload (line 87), so the function is total. -/
def extract_stakeholders_from_jsonld_metadata (env : BridgeEnv)
    (filename : String) : Payload :=
  match extractMetadataBody env filename with
  | .ok p => p
  | .error e => generate_error_result filename e

/-- `extract_stakeholders_enhanced` (`enhanced_jsonld_bridge.py`
lines 716-722): the public entry point, a direct wrapper. -/
def extract_stakeholders_enhanced (env : BridgeEnv) (filename : String) :
    Payload :=
  extract_stakeholders_from_jsonld_metadata env filename

/-- External effects of one `run_extraction_job` invocation beyond the
bridge: the `create_document_metadata_from_source` call plus metadata file
write (`extraction_utils.py` lines 164-182).  `.ok true` models a metadata
dict returned and written, `.ok false` a `None` return (branch skipped),
`.error` a raised exception. -/
structure RunEnv where
  bridge : BridgeEnv
  metadataCreation : Except String Bool

/-- The fixed phase list of `run_extraction_job`
(`extraction_utils.py` lines 185-193) minus its first entry, which the loop
at line 197 skips. -/
def extractionSteps : List (String × String) :=
  [("🔍 Initializing LLM adapter...", "Loading language model"),
   ("🎯 Generating extraction prompt...", "Preparing AI analysis"),
   ("🤖 AI processing document content...", "Extracting stakeholder information"),
   ("🔍 Processing LLM response...", "Validating extracted stakeholders"),
   ("💾 Integrating results...", "Merging with document metadata"),
   ("✅ Finalizing output...", "Creating comprehensive JSON-LD")]

/-- One iteration of the phase loop (`extraction_utils.py` lines 197-211):
iteration `k` (zero-based) writes step `k` of `extractionSteps` and
progress `int(20 + ((k+1)/7) * 50)`. -/
def stepJob (j : Job) (k : ℕ) : Job :=
  let sd := extractionSteps.getD k ("", "")
  { j with current_step := sd.1
           substep := sd.2
           progress := 20 + 50 * (k + 1) / 7 }

/-- `run_extraction_job` (`extraction_utils.py` lines 136-248).  Returns the
final in-memory job together with the ordered list of persisted snapshots
(one entry per `job.save()` / `job.update_status(...)` call).  The modelled
raise point is the metadata-creation block; `extract_stakeholders_enhanced`
and `save` never raise (the former catches internally, the latter returns
`False` on failure).  On exception the handler at lines 243-245 sets
`status=error` with `error=str(e)` (persisted) and then resets `progress`
to 0 without a further save. -/
def run_extraction_job (env : RunEnv) (j0 : Job) : Job × List Job :=
  let j1 := j0.update_status .running none
  let j2 := { j1 with model_used := some (get_model_for_priority j1.priority) }
  let j3 := { j2 with current_step := "📄 Processing document metadata..."
                      substep := "Creating comprehensive document profile"
                      progress := 10 }
  let pre := [j1, j2, j3]
  match env.metadataCreation with
  | .error e =>
      let je := j3.update_status .error (some e)
      ({ je with progress := 0 }, pre ++ [je])
  | .ok created =>
      let j4 := if created then
                  { j3 with current_step := "✅ Document metadata created"
                            progress := 20 }
                else j3
      let trace4 := if created then pre ++ [j4] else pre
      let loopJobs := (List.range 6).map (stepJob j4)
      let j5 := loopJobs.getLastD j4
      let j6 := { j5 with current_step := "🤖 AI extracting stakeholders..."
                          substep := "Deep analysis of document content"
                          progress := 70 }
      let payload := extract_stakeholders_enhanced env.bridge j0.filename
      let j7 := { j6 with results := some payload }
      let j8 := { j7 with progress := 90
                          current_step := "🔗 Integrating with document metadata..."
                          substep := "Creating comprehensive document profile" }
      let j9 := { j8 with progress := 100
                          current_step := "✅ Comprehensive extraction complete"
                          substep := "Document metadata + stakeholders ready" }
      let j10 := j9.update_status .complete none
      let j11 := { j10 with cost_estimate := calculate_extraction_cost j10.priority }
      (j11, trace4 ++ loopJobs ++ [j6, j8, j10, j11])

/-- File-system operations relevant to `PersistentJobManager.save_job`.
`openTruncate` is the truncating `open(job_file, 'w')`, `writeAll` the
`json.dump`, `renameFile` an atomic-replace rename (present in the
vocabulary so its absence from the write plan is expressible). -/
inductive FsOp where
  | openTruncate (path : String)
  | writeAll (path : String) (data : String)
  | renameFile (src dst : String)
deriving DecidableEq, Repr

/-- The `status` string as persisted. -/
def statusString : Status → String
  | .pending => "pending"
  | .running => "running"
  | .complete => "complete"
  | .error => "error"

/-- JSON rendering of an optional string field (`None` becomes `null`). -/
def optFieldStr : Option String → String
  | none => "null"
  | some s => "\"" ++ s ++ "\""

/-- JSON rendering of one stakeholder entry of the persisted `results`. -/
def renderStakeholder (s : Stakeholder) : String :=
  "\x7b\"name\": \"" ++ s.name ++ "\", \"stakeholderType\": \"" ++
  s.stakeholderType ++ "\", \"role\": \"" ++ s.role ++
  "\", \"confidenceScore\": " ++ toString s.confidenceScore ++
  ", \"extractionMethod\": \"" ++ s.extractionMethod ++
  "\", \"sourceText\": \"" ++ s.sourceText ++ "\", \"organization\": \"" ++
  s.organization ++ "\"\x7d"

/-- JSON rendering of the persisted `results` payload. -/
def renderPayload (p : Payload) : String :=
  "\x7b\"@type\": \"" ++ p.typeName ++ "\", \"stakeholders\": [" ++
  String.intercalate ", " (p.stakeholders.map renderStakeholder) ++
  "], \"extractionSummary\": \x7b\"totalStakeholders\": " ++
  toString p.summary.totalStakeholders ++
  (if p.summary.errorFlag then ", \"error\": true" else "") ++ "\x7d\x7d"

/-- JSON rendering of the optional `results` field. -/
def renderOptPayload : Option Payload → String
  | none => "null"
  | some p => renderPayload p

/-- The `json.dump` of the `job_data` dict built by
`PersistentJobManager.save_job` (`persistent_jobs.py` lines 31-48): all
fields of the record, in the dict's insertion order.  Numeric rendering is
representative (exact rationals instead of floats); the `options` bag is
folded into the record head. -/
def serialize_job (j : Job) : String :=
  "\x7b\"job_id\": \"" ++ j.job_id ++ "\", \"filename\": \"" ++ j.filename ++
  "\", \"priority\": \"" ++ j.priority ++ "\", \"status\": \"" ++
  statusString j.status ++ "\", \"progress\": " ++ toString j.progress ++
  ", \"current_step\": \"" ++ j.current_step ++ "\", \"substep\": \"" ++
  j.substep ++ "\", \"start_time\": " ++ toString j.start_time ++
  ", \"model_used\": " ++ optFieldStr j.model_used ++
  ", \"cost_estimate\": " ++ toString j.cost_estimate ++
  ", \"results\": " ++ renderOptPayload j.results ++
  ", \"error\": " ++ optFieldStr j.error ++ "\x7d"

/-- `self.storage_dir / f"{job.job_id}.json"`
(`persistent_jobs.py` line 29). -/
def job_file_path (j : Job) : String :=
  "app/temp/jobs/" ++ j.job_id ++ ".json"

/-- The sequence of file-system operations performed by
`PersistentJobManager.save_job` (`persistent_jobs.py` lines 26-55): a
truncating open of the final path followed by the dump — a direct in-place
overwrite.  Exceptions during the attempt are caught (save returns
`False`). -/
def save_job_plan (j : Job) : List FsOp :=
  [.openTruncate (job_file_path j), .writeAll (job_file_path j) (serialize_job j)]

/-- Content lookup in a file system modelled as a path-content association
list. -/
def fsGet (fs : List (String × String)) (p : String) : Option String :=
  (fs.find? (fun e => e.1 == p)).map (fun e => e.2)

/-- Set (create or replace) the content of a path. -/
def fsSet (fs : List (String × String)) (p c : String) :
    List (String × String) :=
  (p, c) :: fs.filter (fun e => !(e.1 == p))

/-- Remove a path. -/
def fsErase (fs : List (String × String)) (p : String) :
    List (String × String) :=
  fs.filter (fun e => !(e.1 == p))

/-- Effect of one file-system operation: a truncating open empties the file,
a write replaces its content, a rename moves content atomically. -/
def applyFsOp (fs : List (String × String)) : FsOp → List (String × String)
  | .openTruncate p => fsSet fs p ""
  | .writeAll p d => fsSet fs p d
  | .renameFile src dst =>
      match fsGet fs src with
      | some c => fsSet (fsErase fs src) dst c
      | none => fs

/-- Run a list of file-system operations; a crash after `k` operations is
modelled by running only `ops.take k`. -/
def applyFsOps (fs : List (String × String)) (ops : List FsOp) :
    List (String × String) :=
  ops.foldl applyFsOp fs

/-- Whether a write plan contains any rename (the atomic-replace step). -/
def planHasRename (ops : List FsOp) : Bool :=
  ops.any (fun op => match op with
                     | .renameFile _ _ => true
                     | _ => false)

/-- A representative options bag as built by `start_extraction`. -/
def optsA : JobOptions :=
  { useContext := true
    detailedOutput := true
    jsonldDir := some "app/database/jsonld" }

/-- The job registry visible to the API routes: the in-memory
`extraction_jobs` dict of `extraction_utils.py` and the set of records
readable from the persistent store (a record whose load fails is modelled as
absent, since `load_job` returns `None` both for a missing and for an
unreadable file). -/
structure Registry where
  memoryJobs : List (String × Job)
  storeJobs : List (String × Job)
deriving DecidableEq, Repr

/-- Dict lookup keyed by job id. -/
def lookupJob (l : List (String × Job)) (k : String) : Option Job :=
  (l.find? (fun e => e.1 == k)).map (fun e => e.2)

/-- The response dict of `get_extraction_status`
(`agent_api.py` lines 195-211).  `elapsed_time`, a wall-clock value, is
omitted.  `results` is included only for a complete job with truthy results
(a present payload dict is always non-empty, hence truthy); `error` only
for an errored job with a non-empty error string. -/
structure StatusResp where
  job_id : String
  status : Status
  progress : ℕ
  current_step : String
  substep : String
  model_used : Option String
  cost_estimate : ℕ
  results : Option Payload
  error : Option String
deriving DecidableEq, Repr

/-- Build the status response for a job (`agent_api.py` lines 195-211). -/
def mkStatusResp (jid : String) (j : Job) : StatusResp :=
  { job_id := jid
    status := j.status
    progress := j.progress
    current_step := j.current_step
    substep := j.substep
    model_used := j.model_used
    cost_estimate := j.cost_estimate
    results := if j.status = .complete then j.results else none
    error := match j.status, j.error with
             | .error, some s => if s = "" then none else some s
             | _, _ => none }

/-- Outcome of the status endpoint: HTTP 404 or the response. -/
inductive StatusRead where
  | notFound
  | ok (resp : StatusResp)
deriving DecidableEq, Repr

/-- `get_extraction_status` (`agent_api.py` lines 151-216): in-memory lookup
first; on miss, `persistent_job_manager.load_job`, re-inserting the restored
record into `extraction_jobs`; 404 only if both miss.  Returns the outcome
and the updated registry. -/
def get_extraction_status (st : Registry) (jid : String) :
    StatusRead × Registry :=
  match lookupJob st.memoryJobs jid with
  | some j => (.ok (mkStatusResp jid j), st)
  | none =>
      match lookupJob st.storeJobs jid with
      | some j => (.ok (mkStatusResp jid j),
                   { st with memoryJobs := (jid, j) :: st.memoryJobs })
      | none => (.notFound, st)

/-- Outcome of the results endpoint: HTTP 404, HTTP 400 (job not
completed), or the results payload. -/
inductive ResultsRead where
  | notFound
  | notCompleted
  | ok (results : Option Payload)
deriving DecidableEq, Repr

/-- `get_extraction_results` (`agent_api.py` lines 218-244): a single
in-memory lookup — the persistent store is never consulted — then a
completion check. -/
def get_extraction_results (st : Registry) (jid : String) : ResultsRead :=
  match lookupJob st.memoryJobs jid with
  | none => .notFound
  | some j => if j.status ≠ .complete then .notCompleted else .ok j.results

/-! Theorems.  Each claim of the specification review is settled by one
theorem below, with closed counterexamples where the code diverges from the
spec sentence. -/

/-- C5 (counterexample): with an availability map in which no model is
available — in particular the explicitly requested `gpt-4o` is unavailable —
an explicit `(native_structured, gpt-4o)` request is still used verbatim:
the code performs no availability check and no fallback to priority-based
ranking on the explicit path, contradicting the claim that an unavailable
explicit pair is not used. -/
theorem c5_explicit_pair_ignores_availability :
    select_candidates ⟨false, false, false⟩ "quality"
      (some "native_structured") (some "gpt-4o") =
      .ok ("native_structured", "gpt-4o") ∧
    Availability.get ⟨false, false, false⟩ "gpt-4o" = false := by
  decide

/-- C5 (amended): whenever both an explicit strategy and an explicit model
are given, `extract_stakeholders` uses exactly that pair, for every
availability map and priority — availability is never consulted on the
explicit path. -/
theorem c5_explicit_pair_always_used (av : Availability)
    (priority s m : String) :
    select_candidates av priority (some s) (some m) = .ok (s, m) := rfl

/-- C6 (counterexample): under `priority = privacy`, when the local model is
unavailable and DeepSeek is available, the selector chooses the remote
DeepSeek model — so the claim that no remote model is ever chosen under
the privacy priority is false. -/
theorem c6_privacy_can_select_remote :
    select_candidates ⟨false, true, false⟩ "privacy" none none =
      .ok ("json_mode_guided", "deepseek/DeepSeek-V3-0324") ∧
    isLocalModel "deepseek/DeepSeek-V3-0324" = false := by
  decide

/-- C6 (amended): under `priority = privacy`, whenever the local model is
available the selector returns the single local candidate
`(ollama_structured, llama3.1:8b-instruct-q8_0)` — regardless of the other
models' availability — and the finalized privacy cost is zero; but when the
local model is unavailable the selector falls back to remote models
(see the counterexample), so local preference is best-effort, not
exclusive. -/
theorem c6_privacy_prefers_local (av : Availability) (h : av.llama = true) :
    select_candidates av "privacy" none none =
      .ok ("ollama_structured", "llama3.1:8b-instruct-q8_0") ∧
    isLocalModel "llama3.1:8b-instruct-q8_0" = true ∧
    calculate_extraction_cost "privacy" = 0 := by
  rcases av with ⟨g, d, l⟩
  cases h
  cases g <;> cases d <;> decide

/-- C6 (witness): the amended privacy rule applied to the availability map
in which only the local model is reachable. -/
theorem c6_privacy_prefers_local_witness :
    select_candidates ⟨false, false, true⟩ "privacy" none none =
      .ok ("ollama_structured", "llama3.1:8b-instruct-q8_0") ∧
    isLocalModel "llama3.1:8b-instruct-q8_0" = true ∧
    calculate_extraction_cost "privacy" = 0 :=
  c6_privacy_prefers_local ⟨false, false, true⟩ rfl

/-- C9: strategy/model selection is deterministic — two invocations with
identical `(availability, priority, explicitStrategy, explicitModel)`
inputs return the same candidate; the selection functions read no clock,
randomness or hidden state. -/
theorem c9_deterministic_selection (av av' : Availability) (p p' : String)
    (s s' m m' : Option String) (hav : av = av') (hp : p = p')
    (hs : s = s') (hm : m = m') :
    select_candidates av p s m = select_candidates av' p' s' m' := by
  subst hav hp hs hm
  rfl

/-- C9 (witness): determinism at a concrete input. -/
theorem c9_deterministic_selection_witness :
    select_candidates ⟨true, true, true⟩ "quality" none none =
      select_candidates ⟨true, true, true⟩ "quality" none none :=
  c9_deterministic_selection ⟨true, true, true⟩ ⟨true, true, true⟩
    "quality" "quality" none none none none rfl rfl rfl rfl

/-- A concrete completed payload (placeholder extraction for an empty
metadata file), used by several fixtures. -/
def payloadDone : Payload :=
  create_extraction_result
    (create_placeholder_stakeholder "doc.pdf" ⟨"", none⟩) "doc.pdf"

/-- A concrete job that has reached the terminal `complete` status. -/
def jobDone : Job :=
  { Job.fresh "extract_3_300" "doc.pdf" "cost" optsA 0 with
      status := .complete
      progress := 100
      results := some payloadDone }

/-- C3 (counterexample): `update_status` on a job whose status is the
terminal `complete` is not a no-op — it mutates the record and moves it
back to `running`, so terminal states are not sticky. -/
theorem c3_terminal_job_mutated :
    jobDone.status = .complete ∧
    Job.update_status jobDone .running none ≠ jobDone ∧
    (Job.update_status jobDone .running none).status = .running := by
  refine ⟨rfl, ?_, rfl⟩
  intro h
  have := congrArg Job.status h
  simp [Job.update_status, jobDone] at this

/-- C3 (amended): `update_status` applies the requested mutation
unconditionally — the new status (terminal or not, from a terminal state or
not) always overwrites the old one; there is no terminal-state guard, no
warning path and no no-op branch. -/
theorem c3_update_status_unconditional (j : Job) (s : Status)
    (e : Option String) :
    (Job.update_status j s e).status = s := rfl

/-- A concrete job fixture for the persistence claims. -/
def jobC4 : Job := Job.fresh "extract_2_200" "doc.pdf" "cost" optsA 0

/-- C4 (counterexample): `save_job` does not use atomic replace.  Its write
plan contains no rename and its first operation is a truncating open of the
final per-job file itself; a crash immediately after that open leaves the
file empty — neither the old committed record nor the new one — so a
concurrent or post-crash reader can observe a corrupt partial state. -/
theorem c4_save_not_atomic :
    planHasRename (save_job_plan jobC4) = false ∧
    (save_job_plan jobC4).head? = some (.openTruncate (job_file_path jobC4)) ∧
    fsGet (applyFsOps [(job_file_path jobC4, "OLD-RECORD")]
        ((save_job_plan jobC4).take 1)) (job_file_path jobC4) = some "" ∧
    "" ≠ "OLD-RECORD" ∧ "" ≠ serialize_job jobC4 := by
  refine ⟨rfl, rfl, ?_, by decide, by decide⟩
  decide

/-- C4 (amended): `save_job` writes the serialized record directly, in
place, to `<storage_dir>/<job_id>.json` — a truncating open of the final
path followed by the dump, with no temporary file and no rename; a
completed save leaves the new record, but a crash between the open and the
completed write leaves an empty file. -/
theorem c4_save_is_direct_overwrite (j : Job) (old : String) :
    save_job_plan j =
      [.openTruncate (job_file_path j),
       .writeAll (job_file_path j) (serialize_job j)] ∧
    planHasRename (save_job_plan j) = false ∧
    fsGet (applyFsOps [(job_file_path j, old)] (save_job_plan j))
      (job_file_path j) = some (serialize_job j) ∧
    fsGet (applyFsOps [(job_file_path j, old)] ((save_job_plan j).take 1))
      (job_file_path j) = some "" := by
  refine ⟨rfl, rfl, ?_, ?_⟩ <;>
    simp [save_job_plan, applyFsOps, applyFsOp, fsSet, fsGet]

/-- A registry state in which one completed job exists only in the
persistent store (e.g. after a process restart, before any status poll). -/
def regC7 : Registry :=
  { memoryJobs := []
    storeJobs := [("extract_3_300", jobDone)] }

/-- C7 (counterexample): for a completed job present only in the persistent
store, the results read returns NotFound even though the record is in the
store — and the status read on the very same state does find it — so the
claim that both public reads return NotFound only when the job is in
neither location is false for the results read. -/
theorem c7_results_read_ignores_store :
    get_extraction_results regC7 "extract_3_300" = .notFound ∧
    lookupJob regC7.storeJobs "extract_3_300" = some jobDone ∧
    (get_extraction_status regC7 "extract_3_300").1 ≠ .notFound := by
  decide

/-- C7 (amended): the status read behaves as claimed — NotFound exactly
when the job is in neither the in-memory registry nor the store, and a
store-only job is loaded, re-inserted into memory and returned — but the
results read consults only the in-memory registry and returns NotFound for
any job not resident in memory, regardless of the store. -/
theorem c7_status_read_rehydrates (st : Registry) (jid : String) :
    ((get_extraction_status st jid).1 = .notFound ↔
      lookupJob st.memoryJobs jid = none ∧
      lookupJob st.storeJobs jid = none) ∧
    (∀ j : Job, lookupJob st.memoryJobs jid = none →
      lookupJob st.storeJobs jid = some j →
      (get_extraction_status st jid).1 = .ok (mkStatusResp jid j) ∧
      lookupJob ((get_extraction_status st jid).2).memoryJobs jid = some j) ∧
    (lookupJob st.memoryJobs jid = none →
      get_extraction_results st jid = .notFound) := by
  unfold get_extraction_status get_extraction_results
  cases hm : lookupJob st.memoryJobs jid with
  | some j => simp [hm]
  | none =>
      cases hs : lookupJob st.storeJobs jid with
      | some j => simp [hm, hs, lookupJob]
      | none => simp [hm, hs]

/-- C7 (witness): the amended read semantics at the concrete store-only
state. -/
theorem c7_status_read_rehydrates_witness :
    (get_extraction_status regC7 "extract_3_300").1 =
      .ok (mkStatusResp "extract_3_300" jobDone) ∧
    lookupJob ((get_extraction_status regC7 "extract_3_300").2).memoryJobs
      "extract_3_300" = some jobDone ∧
    get_extraction_results regC7 "extract_3_300" = .notFound :=
  ⟨((c7_status_read_rehydrates regC7 "extract_3_300").2.1 jobDone rfl rfl).1,
   ((c7_status_read_rehydrates regC7 "extract_3_300").2.1 jobDone rfl rfl).2,
   (c7_status_read_rehydrates regC7 "extract_3_300").2.2 rfl⟩

/-- A bridge environment in which the metadata file is missing and every
LLM adapter raises. -/
def bridgeMissingFile : BridgeEnv :=
  { fileFound := false
    parsed := .ok ⟨"", none⟩
    agentAttempt := .error "DataExtractionAgent unavailable"
    structuredAttempt := .error "StructuredExtractionAdapter unavailable"
    llamaAttempt := .error "LocalLlamaClient unavailable"
    patternStakeholders := [] }

/-- A run environment whose metadata-creation step succeeds but whose
bridge finds no metadata file. -/
def envC1 : RunEnv :=
  { bridge := bridgeMissingFile
    metadataCreation := .ok true }

/-- A fresh quality-priority job fixture. -/
def jobC1 : Job := Job.fresh "extract_5_500" "doc.pdf" "quality" optsA 0

/-- C1 (counterexample): on the success path, the `results` payload is
assigned and persisted (the progress-90 save at line 225 of
`extraction_utils.py`, snapshot index 11 of the persisted trace) while the
job status is still `running` — so the claim that neither `results` nor
`error` is present while the job is pending or running is false. -/
theorem c1_results_present_while_running :
    (((run_extraction_job envC1 jobC1).2)[11]?).map
      (fun j => (j.status, j.results.isSome, j.progress)) =
      some (Status.running, true, 90) := by
  decide

/-- C1 (amended): the terminal half of the invariant holds — the final job
is always terminal, a `complete` job has results and no error, and an
`error` job has a non-empty error string and no results (given a fresh
record and a non-empty exception message) — but `results` is already set,
and persisted, while the job is still `running` (see the counterexample),
so the pending/running half fails. -/
theorem c1_terminal_result_exclusive (env : RunEnv) (j0 : Job)
    (hres : j0.results = none) (herr : j0.error = none)
    (hmsg : ∀ e, env.metadataCreation = .error e → e ≠ "") :
    ((run_extraction_job env j0).1.status = .complete ∨
      (run_extraction_job env j0).1.status = .error) ∧
    ((run_extraction_job env j0).1.status = .complete →
      (run_extraction_job env j0).1.results.isSome = true ∧
      (run_extraction_job env j0).1.error = none) ∧
    ((run_extraction_job env j0).1.status = .error →
      (∃ s, (run_extraction_job env j0).1.error = some s ∧ s ≠ "") ∧
      (run_extraction_job env j0).1.results = none) := by
  rcases env with ⟨br, mc⟩
  cases mc with
  | error e =>
      exact ⟨Or.inr rfl, fun h => Status.noConfusion h,
             fun _ => ⟨⟨e, rfl, hmsg e rfl⟩, hres⟩⟩
  | ok created =>
      refine ⟨Or.inl rfl, fun _ => ⟨rfl, ?_⟩, fun h => Status.noConfusion h⟩
      cases created <;> exact herr

/-- C1 (witness): the amended terminal invariant at the concrete fixture
run. -/
theorem c1_terminal_result_exclusive_witness :
    ((run_extraction_job envC1 jobC1).1.status = .complete ∨
      (run_extraction_job envC1 jobC1).1.status = .error) ∧
    ((run_extraction_job envC1 jobC1).1.status = .complete →
      (run_extraction_job envC1 jobC1).1.results.isSome = true ∧
      (run_extraction_job envC1 jobC1).1.error = none) ∧
    ((run_extraction_job envC1 jobC1).1.status = .error →
      (∃ s, (run_extraction_job envC1 jobC1).1.error = some s ∧ s ≠ "") ∧
      (run_extraction_job envC1 jobC1).1.results = none) :=
  c1_terminal_result_exclusive envC1 jobC1 rfl rfl
    (fun e h => by simp [envC1] at h)

/-- A document text long enough for the bridge to treat it as real
content (above the 50-character threshold). -/
def contentC2 : String :=
  "The stakeholder community organization described here spans public agencies."

/-- A bridge environment with readable metadata in which every one of the
three LLM extraction candidates raises and pattern extraction matches
nothing. -/
def bridgeC2 : BridgeEnv :=
  { fileFound := true
    parsed := .ok { textContent := contentC2, publisher := none }
    agentAttempt := .error "connection refused"
    structuredAttempt := .error "connection refused"
    llamaAttempt := .error "connection refused"
    patternStakeholders := [] }

/-- A run environment in which all extraction candidates fail. -/
def envC2 : RunEnv :=
  { bridge := bridgeC2
    metadataCreation := .ok true }

/-- A fresh cost-priority job fixture. -/
def jobC2 : Job := Job.fresh "extract_6_600" "doc.pdf" "cost" optsA 0

/-- C2 (counterexample): with every extraction candidate stubbed to fail
(all three adapters raise) and pattern extraction empty, the job does NOT
reach `status=error`: the bridge substitutes a placeholder stakeholder and
the job completes with no error field at all — so there is no per-candidate
failure aggregate anywhere in the record. -/
theorem c2_all_fail_yet_complete :
    (run_extraction_job envC2 jobC2).1.status = .complete ∧
    (run_extraction_job envC2 jobC2).1.error = none ∧
    ((run_extraction_job envC2 jobC2).1.results.map
      (fun p => p.stakeholders.map (fun s => s.extractionMethod))) =
      some ["placeholder"] := by
  decide

/-- C2 (amended): if every LLM candidate fails, the bridge falls back to
pattern extraction or a placeholder and the job still reaches
`status=complete` with results and no error; a job reaches `status=error`
only when `run_extraction_job` itself raises (modelled at the
metadata-creation step), and the persisted error is then the single
exception string, not a structured per-candidate aggregate. -/
theorem c2_fallback_completes (env : RunEnv) (j0 : Job)
    (herr : j0.error = none) :
    ((∃ e, env.bridge.agentAttempt = .error e) →
      (∃ e, env.bridge.structuredAttempt = .error e) →
      (∃ e, env.bridge.llamaAttempt = .error e) →
      ∀ b, env.metadataCreation = .ok b →
        (run_extraction_job env j0).1.status = .complete ∧
        (run_extraction_job env j0).1.error = none ∧
        (run_extraction_job env j0).1.results.isSome = true) ∧
    (∀ e, env.metadataCreation = .error e →
      (run_extraction_job env j0).1.status = .error ∧
      (run_extraction_job env j0).1.error = some e) := by
  rcases env with ⟨br, mc⟩
  cases mc with
  | ok created =>
      refine ⟨fun _ _ _ b hb => ⟨rfl, ?_, rfl⟩,
              fun e he => Except.noConfusion he⟩
      cases created <;> exact herr
  | error e0 =>
      refine ⟨fun _ _ _ b hb => Except.noConfusion hb, fun e he => ?_⟩
      have h1 : e0 = e := Except.error.inj he
      subst h1
      exact ⟨rfl, rfl⟩

/-- C2 (witness): the amended fallback behaviour at the concrete
all-candidates-fail fixture. -/
theorem c2_fallback_completes_witness :
    (run_extraction_job envC2 jobC2).1.status = .complete ∧
    (run_extraction_job envC2 jobC2).1.error = none ∧
    (run_extraction_job envC2 jobC2).1.results.isSome = true :=
  (c2_fallback_completes envC2 jobC2 rfl).1
    ⟨"connection refused", rfl⟩ ⟨"connection refused", rfl⟩
    ⟨"connection refused", rfl⟩ true rfl

/-- A fresh quality-priority job fixture for the cost claim. -/
def jobC8 : Job := Job.fresh "extract_7_700" "doc.pdf" "quality" optsA 0

/-- C8 (counterexample): a completed quality job uses the metered remote
model GPT-4o, yet its finalized cost is the fixed constant $0.008 — a value
that cannot be written as a metered linear function
`rateIn * inputSize + rateOut * outputSize` of the estimated input/output
sizes for any rates, since it does not vary with size. -/
theorem c8_remote_cost_not_size_linear :
    (run_extraction_job envC2 jobC8).1.status = .complete ∧
    (run_extraction_job envC2 jobC8).1.model_used = some "GPT-4o" ∧
    isLocalModel "GPT-4o" = false ∧
    (run_extraction_job envC2 jobC8).1.cost_estimate = 8 ∧
    ¬ ∃ a b : ℚ, ∀ inSize outSize : ℕ,
        (calculate_extraction_cost "quality" : ℚ) =
          a * (inSize : ℚ) + b * (outSize : ℚ) := by
  refine ⟨by decide, by decide, by decide, by decide, ?_⟩
  rintro ⟨a, b, h⟩
  have h1 := h 1 1
  have h2 := h 2 2
  rw [show calculate_extraction_cost "quality" = 8 from by decide] at h1 h2
  push_cast at h1 h2
  linarith

/-- The priorities whose assigned model is local are exactly those with a
zero cost constant. -/
theorem local_priority_zero_cost (p : String)
    (h : isLocalModel (get_model_for_priority p) = true) :
    calculate_extraction_cost p = 0 := by
  by_cases h1 : p = "cost"
  · simp [calculate_extraction_cost, h1]
  by_cases h2 : p = "quality"
  · rw [h2] at h
    exact absurd h (by decide)
  by_cases h3 : p = "speed"
  · rw [h3] at h
    exact absurd h (by decide)
  by_cases h4 : p = "privacy"
  · simp [calculate_extraction_cost, h1, h2, h3, h4]
  · simp [get_model_for_priority, h1, h2, h3, h4] at h
    exact absurd h (by decide)

/-- C8 (amended): the finalized `cost_estimate` of a job that runs to
completion is the fixed per-priority constant of
`calculate_extraction_cost` — $0 for the local-model priorities `cost` and
`privacy`, $0.008 for `quality`, $0.002 for `speed` — for every environment,
i.e. independent of the input/output size; the size-linear cost model
exists only in `DataExtractionAgent._calculate_cost` and is never persisted
to the job record. -/
theorem c8_cost_fixed_constant (env : RunEnv) (j0 : Job) (b : Bool)
    (hb : env.metadataCreation = .ok b) :
    (run_extraction_job env j0).1.cost_estimate =
      calculate_extraction_cost j0.priority ∧
    (isLocalModel (get_model_for_priority j0.priority) = true →
      (run_extraction_job env j0).1.cost_estimate = 0) := by
  rcases env with ⟨br, mc⟩
  cases hb
  constructor
  · cases b <;> rfl
  · intro hl
    cases b <;> exact local_priority_zero_cost j0.priority hl

/-- C8 (witness): the amended cost rule at the concrete local-priority
fixture run. -/
theorem c8_cost_fixed_constant_witness :
    (run_extraction_job envC2 jobC2).1.cost_estimate =
      calculate_extraction_cost jobC2.priority ∧
    (isLocalModel (get_model_for_priority jobC2.priority) = true →
      (run_extraction_job envC2 jobC2).1.cost_estimate = 0) :=
  c8_cost_fixed_constant envC2 jobC2 true rfl

/-- C10: `extract_stakeholders_enhanced` is total — modelled as a plain
function, because the Python body runs entirely inside a handler that
converts any exception into `generate_error_result` — and when the metadata
file is missing, or the metadata fails to parse, it returns the
error-shaped payload whose stakeholder list is empty and whose
`extractionSummary` marks `error = True`; every return value has one of
the two payload shapes. -/
theorem c10_bridge_total_error_shape (env : BridgeEnv) (filename : String) :
    (env.fileFound = false →
      extract_stakeholders_enhanced env filename =
        generate_error_result filename
          ("JSON-LD file not found: " ++ filename)) ∧
    (∀ e, env.fileFound = true → env.parsed = .error e →
      extract_stakeholders_enhanced env filename =
        generate_error_result filename e) ∧
    ((extract_stakeholders_enhanced env filename).summary.errorFlag = true →
      (extract_stakeholders_enhanced env filename).stakeholders = [] ∧
      (extract_stakeholders_enhanced env filename).typeName =
        "ExtractionError") ∧
    ((extract_stakeholders_enhanced env filename).typeName =
        "StakeholderExtraction" ∨
      (extract_stakeholders_enhanced env filename).typeName =
        "ExtractionError") := by
  rcases env with ⟨ff, pr, aa, sa, la, ps⟩
  cases ff
  · exact ⟨fun _ => rfl, fun e h => Bool.noConfusion h,
           fun _ => ⟨rfl, rfl⟩, Or.inr rfl⟩
  · cases pr with
    | error e0 =>
        refine ⟨fun h => Bool.noConfusion h, fun e _ he => ?_,
                fun _ => ⟨rfl, rfl⟩, Or.inr rfl⟩
        have h1 : e0 = e := Except.error.inj he
        subst h1
        rfl
    | ok m =>
        exact ⟨fun h => Bool.noConfusion h,
               fun e _ he => Except.noConfusion he,
               fun h => Bool.noConfusion h, Or.inl rfl⟩

/-- C10 (witness): the error shape at a concrete missing-file
environment. -/
theorem c10_bridge_total_error_shape_witness :
    extract_stakeholders_enhanced bridgeMissingFile "doc.pdf" =
      generate_error_result "doc.pdf"
        ("JSON-LD file not found: " ++ "doc.pdf") :=
  (c10_bridge_total_error_shape bridgeMissingFile "doc.pdf").1 rfl

end DocEX
